import Mathlib

/-
Verification of the Renewable Site Assessment Engine of MarketIntelli.

Shallow embedding conventions:
* Python floats are modelled as exact rationals (ℚ); the built-in `round`
  is modelled by round-half-to-even (`pyRoundInt` / `pyRound`).
* Python dicts/lists/scalars exchanged with the cache and between the
  orchestrator and the analyzers are modelled by the JSON-like type `Doc`;
  `json.dumps`/`json.loads` round trip is the identity on `Doc`.
* Exceptions are modelled with `Except String`; an upstream Earth Engine
  query is modelled by an oracle value `Except String _Raw` fixed in the
  environment (deterministic upstream, as in the idempotence section of the spec).
* Storage I/O faults of the sqlite cache are modelled by boolean fault flags
  threaded to the `DiskCache` operations.
-/

set_option maxHeartbeats 1000000

namespace MI

/-- Python round-half-to-even of a rational to an integer: the semantics of
the built-in `round(x)` on the idealised (exact) value of the float `x`. -/
def pyRoundInt (q : ℚ) : ℤ :=
  if q - ⌊q⌋ < 1/2 then ⌊q⌋
  else if 1/2 < q - ⌊q⌋ then ⌊q⌋ + 1
  else if ⌊q⌋ % 2 = 0 then ⌊q⌋ else ⌊q⌋ + 1

/-- Python `round(q, n)`: round to `n` decimal places, half to even. -/
def pyRound (q : ℚ) (n : ℕ) : ℚ :=
  (pyRoundInt (q * (10 : ℚ) ^ n) : ℚ) / (10 : ℚ) ^ n

lemma pyRoundInt_le {q : ℚ} {n : ℤ} (h : q ≤ (n : ℚ)) : pyRoundInt q ≤ n := by
  have hf : ⌊q⌋ ≤ n := by
    have h2 := Int.floor_le_floor h
    simpa using h2
  have hfq : (⌊q⌋ : ℚ) ≤ q := Int.floor_le q
  have hsucc : (1 : ℚ)/2 ≤ q - ⌊q⌋ → ⌊q⌋ + 1 ≤ n := by
    intro hge
    have hlt : (⌊q⌋ : ℚ) < (n : ℚ) := by linarith
    exact Int.add_one_le_of_lt (by exact_mod_cast hlt)
  unfold pyRoundInt
  split_ifs with h1 h2 h3
  · exact hf
  · exact hsucc (le_of_lt h2)
  · exact hf
  · exact hsucc (le_of_not_lt h1)

lemma le_pyRoundInt {q : ℚ} {n : ℤ} (h : (n : ℚ) ≤ q) : n ≤ pyRoundInt q := by
  have hf : n ≤ ⌊q⌋ := Int.le_floor.mpr h
  unfold pyRoundInt
  split_ifs with h1 h2 h3
  · exact hf
  · omega
  · exact hf
  · omega

/-- Evaluation of `pyRound` when the scaled value rounds down. -/
lemma pyRound_eval {q : ℚ} {n : ℕ} {m : ℤ} (hm : (m : ℚ) ≤ q * (10:ℚ)^n)
    (hm2 : q * (10:ℚ)^n < m + 1) (hlt : q * (10:ℚ)^n - m < 1/2) :
    pyRound q n = (m : ℚ) / (10:ℚ)^n := by
  unfold pyRound pyRoundInt
  rw [Int.floor_eq_iff.mpr ⟨hm, hm2⟩, if_pos hlt]

/-- Evaluation of `pyRound` when the scaled value rounds up. -/
lemma pyRound_eval_up {q : ℚ} {n : ℕ} {m : ℤ} (hm : (m : ℚ) ≤ q * (10:ℚ)^n)
    (hm2 : q * (10:ℚ)^n < m + 1) (hgt : 1/2 < q * (10:ℚ)^n - m) :
    pyRound q n = ((m + 1 : ℤ) : ℚ) / (10:ℚ)^n := by
  unfold pyRound pyRoundInt
  rw [Int.floor_eq_iff.mpr ⟨hm, hm2⟩, if_neg (by linarith), if_pos hgt]

/-- Rounding to one decimal keeps a value inside [0, 100]. -/
lemma pyRound_one_mem {x : ℚ} (h0 : 0 ≤ x) (h1 : x ≤ 100) :
    0 ≤ pyRound x 1 ∧ pyRound x 1 ≤ 100 := by
  have ha : ((0 : ℤ) : ℚ) ≤ x * (10 : ℚ) ^ 1 := by push_cast; nlinarith
  have hb : x * (10 : ℚ) ^ 1 ≤ ((1000 : ℤ) : ℚ) := by push_cast; nlinarith
  have c1 : (0 : ℤ) ≤ pyRoundInt (x * (10 : ℚ) ^ 1) := le_pyRoundInt ha
  have c2 : pyRoundInt (x * (10 : ℚ) ^ 1) ≤ (1000 : ℤ) := pyRoundInt_le hb
  have c1q : (0 : ℚ) ≤ (pyRoundInt (x * (10 : ℚ) ^ 1) : ℚ) := by exact_mod_cast c1
  have c2q : ((pyRoundInt (x * (10 : ℚ) ^ 1) : ℤ) : ℚ) ≤ 1000 := by exact_mod_cast c2
  unfold pyRound
  constructor
  · positivity
  · rw [div_le_iff₀ (by norm_num : (0 : ℚ) < (10 : ℚ) ^ 1)]
    linarith

-- ============================================================
-- JSON-like result documents
-- ============================================================

/-- JSON-like documents: the Python dicts/lists/scalars that the analyzers
build, cache and return. Dict insertion order is kept, as in Python; the
`json.dumps` / `json.loads` round trip applied by the cache is the identity
on this type. -/
inductive Doc : Type
  | null : Doc
  | num : ℚ → Doc
  | str : String → Doc
  | bool : Bool → Doc
  | arr : List Doc → Doc
  | obj : List (String × Doc) → Doc

/-- Python truthiness of a document (the `if cached:` / `if sanitized:`
tests of the analyzers). -/
def Doc.truthy : Doc → Bool
  | Doc.null => false
  | Doc.num q => if q = 0 then false else true
  | Doc.str s => if s = "" then false else true
  | Doc.bool b => b
  | Doc.arr xs => if xs.isEmpty then false else true
  | Doc.obj fs => if fs.isEmpty then false else true

def lookupPairs : List (String × Doc) → String → Option Doc
  | [], _ => none
  | (k, v) :: rest, key => if k = key then some v else lookupPairs rest key

/-- Python dict assignment `d[key] = v`: replace in place, or append at the
end when the key is new (insertion order semantics). -/
def setPairs : List (String × Doc) → String → Doc → List (String × Doc)
  | [], key, v => [(key, v)]
  | (k, w) :: rest, key, v =>
    if k = key then (key, v) :: rest else (k, w) :: setPairs rest key v

def Doc.getField : Doc → String → Option Doc
  | Doc.obj fs, key => lookupPairs fs key
  | _, _ => none

def Doc.setField : Doc → String → Doc → Doc
  | Doc.obj fs, key, v => Doc.obj (setPairs fs key v)
  | d, _, _ => d

/-- Python `d.get(key, 0)` read as a number (the orchestrator only reads
numeric score fields this way); a missing key, a non-dict document or a
non-numeric value yields the default 0. -/
def Doc.getNum (d : Doc) (key : String) : ℚ :=
  match Doc.getField d key with
  | some (Doc.num q) => q
  | _ => 0

lemma setPairs_ne_nil (fs : List (String × Doc)) (k : String) (v : Doc) :
    setPairs fs k v ≠ [] := by
  cases fs with
  | nil => simp [setPairs]
  | cons hd tl =>
    obtain ⟨k2, w⟩ := hd
    simp only [setPairs]
    split <;> simp

-- ============================================================
-- DiskCache (src/backend/app/domains/solar_assessment/services/
-- assessment_service.py lines 22-64; the identical class also lives at
-- src/backend/assessment_service.py lines 20-63)
-- ============================================================

/-- Cache key contents. `DiskCache._get_key` computes the md5 digest of
`f"{service}_{round(lat,4)}_{round(lon,4)}"`; the digest is modelled by its
preimage: md5 is a fixed deterministic function, so equal preimages give
equal digests, and the distinct short preimages arising here have distinct
digests. -/
abbrev CKey := String × ℚ × ℚ

/-- Model of `DiskCache._get_key(service, lat, lon)`. -/
def getKey (service : String) (lat lon : ℚ) : CKey :=
  (service, pyRound lat 4, pyRound lon 4)

/-- The sqlite `cache` table: `key TEXT PRIMARY KEY, value TEXT`; the
informational timestamp column is never read and is omitted. -/
structure DiskCache where
  entries : List (CKey × Doc)

def lookupEntry : List (CKey × Doc) → CKey → Option Doc
  | [], _ => none
  | (k, v) :: rest, key => if k = key then some v else lookupEntry rest key

/-- Semantics of `INSERT OR REPLACE`: a later `set` with the same key
overwrites silently. -/
def insertEntry : List (CKey × Doc) → CKey → Doc → List (CKey × Doc)
  | [], key, v => [(key, v)]
  | (k, w) :: rest, key, v =>
    if k = key then (key, v) :: rest else (k, w) :: insertEntry rest key v

/-- The raw `SELECT value FROM cache WHERE key = ?` call: it may raise a
storage I/O error (fault flag), otherwise it returns the row, if any. -/
def selectRow (c : DiskCache) (ioFail : Bool) (key : CKey) :
    Except String (Option Doc) :=
  if ioFail then Except.error ("Cache Get Error") else Except.ok (lookupEntry c.entries key)

/-- `DiskCache.get` (lines 42-52): key derivation, guarded select; an I/O
error is caught, logged and turned into `None` (a miss); `json.loads` of the
stored text is the identity on `Doc`. -/
def DiskCache.get (c : DiskCache) (ioFail : Bool) (service : String) (lat lon : ℚ) :
    Option Doc :=
  match selectRow c ioFail (getKey service lat lon) with
  | Except.ok (some row) => some row
  | Except.ok none => none
  | Except.error _ => none

/-- The raw `INSERT OR REPLACE ...` call, with its storage fault flag. -/
def insertRow (c : DiskCache) (ioFail : Bool) (key : CKey) (v : Doc) :
    Except String DiskCache :=
  if ioFail then Except.error ("Cache Set Error")
  else Except.ok ⟨insertEntry c.entries key v⟩

/-- `DiskCache.set` (lines 54-64): an I/O error is caught and logged; the
stored contents are then unchanged and the call returns normally. -/
def DiskCache.set (c : DiskCache) (ioFail : Bool) (service : String) (lat lon : ℚ)
    (v : Doc) : DiskCache :=
  match insertRow c ioFail (getKey service lat lon) v with
  | Except.ok c2 => c2
  | Except.error _ => c

/-- All cached documents are truthy (non-empty). -/
def DiskCache.wellFormed (c : DiskCache) : Bool :=
  c.entries.all (fun e => e.2.truthy)

lemma lookupEntry_insertEntry_self (es : List (CKey × Doc)) (k : CKey) (v : Doc) :
    lookupEntry (insertEntry es k v) k = some v := by
  induction es with
  | nil => simp [insertEntry, lookupEntry]
  | cons hd tl ih =>
    obtain ⟨k1, w⟩ := hd
    by_cases hk : k1 = k
    · simp [insertEntry, lookupEntry, hk]
    · simp [insertEntry, lookupEntry, hk, ih]

lemma lookupEntry_insertEntry_ne (es : List (CKey × Doc)) (k k' : CKey) (v : Doc)
    (h : k' ≠ k) : lookupEntry (insertEntry es k v) k' = lookupEntry es k' := by
  induction es with
  | nil => simp [insertEntry, lookupEntry, Ne.symm h]
  | cons hd tl ih =>
    obtain ⟨k1, w⟩ := hd
    by_cases hk : k1 = k
    · subst hk
      simp [insertEntry, lookupEntry, Ne.symm h]
    · simp only [insertEntry, hk, if_false, lookupEntry]
      by_cases hk2 : k1 = k'
      · simp [hk2]
      · simp [hk2, ih]

lemma wellFormed_insertEntry (es : List (CKey × Doc)) (k : CKey) (v : Doc)
    (hes : es.all (fun e => e.2.truthy) = true) (hv : v.truthy = true) :
    (insertEntry es k v).all (fun e => e.2.truthy) = true := by
  induction es with
  | nil => simp [insertEntry, hv]
  | cons hd tl ih =>
    obtain ⟨k1, w⟩ := hd
    simp only [List.all_cons, Bool.and_eq_true] at hes
    by_cases hk : k1 = k
    · simp [insertEntry, hk, hv, hes.1, hes.2]
    · simp [insertEntry, hk, hes.1, ih hes.2]

lemma wellFormed_set (c : DiskCache) (sf : Bool) (service : String) (lat lon : ℚ)
    (v : Doc) (hc : c.wellFormed = true) (hv : v.truthy = true) :
    (DiskCache.set c sf service lat lon v).wellFormed = true := by
  cases sf with
  | false =>
    simp only [DiskCache.set, insertRow, if_neg (by simp : ¬ false = true)]
    exact wellFormed_insertEntry c.entries _ v hc hv
  | true =>
    simpa [DiskCache.set, insertRow] using hc

-- ============================================================
-- Common analyzer skeleton of the app-domains service
-- (assessment_service.py under app/domains/solar_assessment)
-- ============================================================

/-- Storage fault flags of the environment: whether the sqlite store raises
on the next `get` / `set`. -/
structure IOEnv where
  getFail : Bool
  setFail : Bool

/-- The `RuntimeError` text of `AssessmentService._require_ee` (lines 97-102). -/
def eeMsg : String :=
  "Google Earth Engine credentials are not configured. Please upload a service account key file."

/-- The part of each analyzer after the cache lookup: `self._require_ee()`
(raises when Earth Engine is not initialized), then the single upstream
`reduceRegion(...).getInfo()` query (its outcome is `compute`; the third
component counts upstream queries issued), then `cache.set` and return.
A query exception is logged and re-raised (lines 168-170 etc.). -/
def computePath (io : IOEnv) (eeInit : Bool) (service : String)
    (compute : Except String Doc) (c : DiskCache) (lat lon : ℚ) :
    Except String Doc × DiskCache × ℕ :=
  if eeInit = false then (Except.error eeMsg, c, 0)
  else
    match compute with
    | Except.error e => (Except.error e, c, 1)
    | Except.ok result =>
      (Except.ok result, DiskCache.set c io.setFail service lat lon result, 1)

/-- The shared shape of `analyze_wind` / `analyze_solar` / `analyze_water`
(lines 107-110, 175-178, 246-249): `cached = self.cache.get(...)`;
`if cached: return cached` (a falsy cached document falls through to
recomputation), else the compute path. -/
def cachedAnalyze (io : IOEnv) (eeInit : Bool) (service : String)
    (compute : Except String Doc) (c : DiskCache) (lat lon : ℚ) :
    Except String Doc × DiskCache × ℕ :=
  match DiskCache.get c io.getFail service lat lon with
  | some cached =>
    if cached.truthy then (Except.ok cached, c, 0)
    else computePath io eeInit service compute c lat lon
  | none => computePath io eeInit service compute c lat lon

-- ============================================================
-- The app-domains analyzers
-- ============================================================

namespace Domains

/-- Python `values.get(band, default) or default`: a missing (`None`) or
zero (falsy) band value falls back to the default. -/
def orDef (v : Option ℚ) (d : ℚ) : ℚ :=
  match v with
  | none => d
  | some q => if q = 0 then d else q

/-- The nine band values of the wind `reduceRegion` query, in image order
(lines 128-147): wind speed, power density, air density, ruggedness, three
IEC capacity factors, slope, elevation. `none` models a `null` pixel. -/
structure WindRaw where
  ws : Option ℚ
  pd : Option ℚ
  ad : Option ℚ
  rix : Option ℚ
  cf1 : Option ℚ
  cf2 : Option ℚ
  cf3 : Option ℚ
  slope : Option ℚ
  elev : Option ℚ

/-- The raw dict passed to `_analyze_wind_potential` (lines 149-153). -/
structure WindVals where
  ws : ℚ
  pd : ℚ
  ad : ℚ
  rix : ℚ
  cf1 : ℚ
  cf2 : ℚ
  cf3 : ℚ
  slope : ℚ
  elev : ℚ

/-- Wind grade bands by power density (lines 363-368). -/
def windGrade (pd : ℚ) : String × String :=
  if pd ≥ 600 then (("A+"), ("World-class resource"))
  else if pd ≥ 400 then (("A"), ("Outstanding potential"))
  else if pd ≥ 300 then (("B"), ("Commercial viability"))
  else if pd ≥ 200 then (("C"), ("Moderate resource"))
  else if pd ≥ 100 then (("D"), ("Marginal suitability"))
  else (("F"), ("Unsuitable"))

/-- Qualitative wind insights (lines 370-379). The decimal rendering of the
interpolated loss percentage is abstracted by `toString` of the rational. -/
def windInsights (ad rix slope : ℚ) : List String :=
  let base : List String :=
    (if ad < 115/100 then
      [("Low air density detected. Expect ~") ++
        toString (pyRound (((1225/1000 - ad) / (1225/1000)) * 100) 1) ++
        ("% energy loss compared to STP.")]
     else []) ++
    (if rix > 3/10 then
      [("High terrain ruggedness (RIX > 0.3) suggests significant turbulence risk.")]
     else []) ++
    (if slope > 15 then
      [("Steep terrain (>15°) may complicate turbine installation and access.")]
     else [])
  if base.isEmpty then
    [("Stable site conditions with consistent laminar flow potential.")]
  else base

/-- `cfs.index(max(cfs)) if max(cfs) > 0 else 2` (line 385): the first
(lowest) index attaining the maximum, with a default of index 2 when the
maximum is not positive. -/
def bestTurbineIdx (cf1 cf2 cf3 : ℚ) : ℕ :=
  if 0 < max cf1 (max cf2 cf3) then
    (if cf1 = max cf1 (max cf2 cf3) then 0
     else if cf2 = max cf1 (max cf2 cf3) then 1 else 2)
  else 2

/-- The recommended turbine label (lines 386-388). -/
def turbineRecommendation (cf1 cf2 cf3 : ℚ) : String :=
  match bestTurbineIdx cf1 cf2 cf3 with
  | 0 => ("IEC Class 1 (High Wind)")
  | 1 => ("IEC Class 2 (Medium Wind)")
  | _ => ("IEC Class 3 (Low Wind)")

/-- `_analyze_wind_potential` (lines 355-416). -/
def analyzeWindPotential (d : WindVals) : Doc :=
  Doc.obj [
    (("metadata"), Doc.obj [
      (("source"), Doc.str ("Global Wind Atlas v3 (GWA)")),
      (("provider"), Doc.str ("Technical University of Denmark (DTU)")),
      (("methodology"), Doc.str ("Downscaled ERA5 reanalysis via WRF models"))]),
    (("resource"), Doc.obj [
      (("grade"), Doc.str (windGrade d.pd).1),
      (("label"), Doc.str (windGrade d.pd).2),
      (("wind_speed"), Doc.num (pyRound d.ws 2)),
      (("power_density"), Doc.num (pyRound d.pd 1)),
      (("air_density"), Doc.num (pyRound d.ad 3))]),
    (("feasibility"), Doc.obj [
      (("rix"), Doc.num (pyRound d.rix 2)),
      (("slope"), Doc.num (pyRound d.slope 1)),
      (("elevation"), Doc.num (pyRound d.elev 0)),
      (("status"),
        Doc.str (if d.rix < 5/10 ∧ d.slope < 20 then ("Feasible") else ("Challenging")))]),
    (("insights"), Doc.arr ((windInsights d.ad d.rix d.slope).map Doc.str)),
    (("turbine"), Doc.obj [
      (("best_fit"), Doc.str (turbineRecommendation d.cf1 d.cf2 d.cf3)),
      (("cf_iec1"), Doc.num (pyRound d.cf1 3)),
      (("cf_iec2"), Doc.num (pyRound d.cf2 3)),
      (("cf_iec3"), Doc.num (pyRound d.cf3 3))])]

/-- Wind score bands by power density (lines 157-162). -/
def windScoreBands (pd : ℚ) : ℚ :=
  if pd ≥ 600 then 90
  else if pd ≥ 400 then 75
  else if pd ≥ 300 then 60
  else if pd ≥ 200 then 45
  else if pd ≥ 100 then 30
  else 10

/-- The success body of `analyze_wind` (lines 138-164): band defaults, the
`_analyze_wind_potential` document, then `result["score"]` and
`result["terrain"]` assignments. -/
def buildWindDoc (r : WindRaw) : Doc :=
  let ws := orDef r.ws 0
  let pd := orDef r.pd 0
  let ad := orDef r.ad (1225/1000)
  let rix := orDef r.rix 0
  let cf1 := orDef r.cf1 0
  let cf2 := orDef r.cf2 0
  let cf3 := orDef r.cf3 0
  let slope := orDef r.slope 0
  let elev := orDef r.elev 0
  let base := analyzeWindPotential ⟨ws, pd, ad, rix, cf1, cf2, cf3, slope, elev⟩
  Doc.setField (Doc.setField base ("score") (Doc.num (windScoreBands pd))) ("terrain")
    (Doc.obj [(("slope"), Doc.num slope), (("elevation"), Doc.num elev)])

/-- The five band values of the solar query, in image order (lines 191-203):
GHI, DNI, diffuse, PVOUT, LTDI. -/
structure SolarRaw where
  ghi : Option ℚ
  dni : Option ℚ
  dif : Option ℚ
  pvout : Option ℚ
  ltdi : Option ℚ

/-- Solar score bands by GHI (lines 206-210). -/
def solarScoreBands (ghi : ℚ) : ℚ :=
  if ghi ≥ 2000 then 90
  else if ghi ≥ 1800 then 75
  else if ghi ≥ 1600 then 60
  else if ghi ≥ 1400 then 45
  else 25

/-- Solar grade bands by GHI (lines 213-217). -/
def solarGrade (ghi : ℚ) : String × String :=
  if ghi ≥ 2000 then (("A+"), ("World-class irradiance"))
  else if ghi ≥ 1800 then (("A"), ("Excellent solar resource"))
  else if ghi ≥ 1600 then (("B"), ("Good commercial viability"))
  else if ghi ≥ 1400 then (("C"), ("Moderate resource"))
  else (("D"), ("Marginal resource"))

/-- The success body of `analyze_solar` (lines 198-236). -/
def buildSolarDoc (r : SolarRaw) : Doc :=
  let ghi := orDef r.ghi 0
  let dni := orDef r.dni 0
  let dif := orDef r.dif 0
  let pvout := orDef r.pvout 0
  let ltdi := orDef r.ltdi 0
  Doc.obj [
    (("score"), Doc.num (solarScoreBands ghi)),
    (("resource"), Doc.obj [
      (("grade"), Doc.str (solarGrade ghi).1),
      (("label"), Doc.str (solarGrade ghi).2),
      (("ghi"), Doc.num (pyRound ghi 1)),
      (("dni"), Doc.num (pyRound dni 1)),
      (("dif"), Doc.num (pyRound dif 1)),
      (("pvout"), Doc.num (pyRound pvout 1)),
      (("ltdi"), Doc.num (pyRound ltdi 3))]),
    (("metadata"), Doc.obj [
      (("source"), Doc.str ("Global Solar Atlas v2.6")),
      (("provider"), Doc.str ("Solargis / World Bank Group")),
      (("unit_ghi"), Doc.str ("kWh/m²/year")),
      (("unit_pvout"), Doc.str ("kWh/kWp/year"))])]

/-- The two band values of the water query, in image order (lines 269-278):
GRACE land-water-equivalent anomaly and GRIDMET PDSI drought index. -/
structure WaterRaw where
  grace : Option ℚ
  pdsi : Option ℚ

/-- `grace_norm = max(0, min(100, (grace_val + 50) * 1.0))` (line 281). -/
def graceNorm (g : ℚ) : ℚ := max 0 (min 100 ((g + 50) * 1))

/-- `pdsi_norm = max(0, min(100, (pdsi_val + 6) / 12 * 100))` (line 282). -/
def pdsiNorm (p : ℚ) : ℚ := max 0 (min 100 ((p + 6) / 12 * 100))

/-- `composite = round((grace_norm * 0.5) + (pdsi_norm * 0.5), 1)` (line 283). -/
def waterComposite (g p : ℚ) : ℚ :=
  pyRound (graceNorm g * (5/10) + pdsiNorm p * (5/10)) 1

/-- The interpretation label of the water composite (lines 289-293). -/
def waterInterpretation (composite : ℚ) : String :=
  if composite < 30 then ("Water-stressed region")
  else if composite < 60 then ("Moderate water availability")
  else ("Good water availability")

/-- The success body of `analyze_water` (lines 276-298). -/
def buildWaterDoc (r : WaterRaw) : Doc :=
  let g := orDef r.grace 0
  let p := orDef r.pdsi 0
  let composite := waterComposite g p
  Doc.obj [
    (("composite_risk_score"), Doc.num composite),
    (("grace_anomaly"), Doc.num (pyRound g 2)),
    (("pdsi"), Doc.num (pyRound p 2)),
    (("interpretation"), Doc.str (waterInterpretation composite)),
    (("metadata"), Doc.obj [
      (("grace_source"), Doc.str ("NASA GRACE Land (JPL mascon)")),
      (("pdsi_source"), Doc.str ("GRIDMET Drought (PDSI)"))])]

/-- The deterministic environment of one orchestrator request: the outcome
of the upstream query of each analyzer, whether Earth Engine initialization
succeeded, and the cache storage fault flags. -/
structure Env where
  windOracle : Except String WindRaw
  solarOracle : Except String SolarRaw
  waterOracle : Except String WaterRaw
  eeInit : Bool
  io : IOEnv

/-- `AssessmentService.analyze_wind` (lines 107-170). -/
def analyze_wind (env : Env) (c : DiskCache) (lat lon : ℚ) :
    Except String Doc × DiskCache × ℕ :=
  cachedAnalyze env.io env.eeInit ("wind") (Except.map buildWindDoc env.windOracle) c lat lon

/-- `AssessmentService.analyze_solar` (lines 175-241). -/
def analyze_solar (env : Env) (c : DiskCache) (lat lon : ℚ) :
    Except String Doc × DiskCache × ℕ :=
  cachedAnalyze env.io env.eeInit ("solar") (Except.map buildSolarDoc env.solarOracle) c lat lon

/-- `AssessmentService.analyze_water` (lines 246-303). -/
def analyze_water (env : Env) (c : DiskCache) (lat lon : ℚ) :
    Except String Doc × DiskCache × ℕ :=
  cachedAnalyze env.io env.eeInit ("water") (Except.map buildWaterDoc env.waterOracle) c lat lon

-- ============================================================
-- The orchestrator `AssessmentService.analyze` (lines 308-349)
-- ============================================================

/-- `future.result() if not future.exception() else {}` (lines 317-319):
a failed analyzer contributes the empty dict. -/
def orEmpty (r : Except String Doc) : Doc :=
  match r with
  | Except.ok d => d
  | Except.error _ => Doc.obj []

/-- `overall_score = round((s*0.35) + (w*0.35) + (wt*0.30), 1)` (line 324). -/
def overallScore (s w wt : ℚ) : ℚ :=
  pyRound (s * (35/100) + w * (35/100) + wt * (30/100)) 1

/-- The rating thresholds of the orchestrator (lines 326-329). -/
def suitabilityRating (overall : ℚ) : String :=
  if overall ≥ 75 then ("PREMIUM SITE")
  else if overall ≥ 60 then ("OPTIMAL")
  else if overall ≥ 45 then ("VIABLE")
  else ("CHALLENGING")

/-- `_generate_site_insights` (lines 419-440). -/
def generateSiteInsights (wind solar water : Doc) : List String :=
  let w_score := Doc.getNum wind ("score")
  let s_score := Doc.getNum solar ("score")
  let wt_score := Doc.getNum water ("composite_risk_score")
  let l1 : List String :=
    if w_score > 60 ∧ s_score > 60 then
      [("Prime Hybrid Site: Exceptional co-location potential for Wind & Solar.")]
    else if w_score > 70 then
      [("Wind-Dominant: World-class wind resource detected; prioritize high-hub turbines.")]
    else if s_score > 70 then
      [("Solar-Dominant: Optimal GHI and sky clarity; ideal for large-scale PV tracking.")]
    else []
  let l2 : List String :=
    if wt_score < 30 then
      [("Critical Resource Sync: Severe water stress detected. Air-cooling or dry-cleaning systems recommended.")]
    else if wt_score > 70 then
      [("Hydrological Buffer: Abundant surface/ground water resources available.")]
    else []
  let terrain := match Doc.getField wind ("terrain") with
    | some t => t
    | none => Doc.obj []
  let l3 : List String :=
    if Doc.getNum terrain ("slope") > 15 then
      [("Logistical Note: Steep terrain identified. Civil works may require reinforced foundations.")]
    else []
  l1 ++ l2 ++ l3

/-- The response of `AssessmentService.analyze` (lines 333-349). -/
structure Composite where
  wind : Doc
  solar : Doc
  water : Doc
  overall_score : ℚ
  rating : String
  insights : List String
  comp_solar : ℚ
  comp_wind : ℚ
  comp_water : ℚ
  lat : ℚ
  lon : ℚ
  timestamp : String

/-- `AssessmentService.analyze(lat, lon)` (lines 308-349): fan the three
analyzers out (they run concurrently on disjoint cache keys, modelled here
as a sequential composition), substitute the empty dict for a failed
analyzer, and build the composite. Totality of this function is the
"never errors outward" property. The returned triple also carries the final
cache and the total number of upstream queries issued. -/
def analyze (env : Env) (c : DiskCache) (lat lon : ℚ) (now : String) :
    Composite × DiskCache × ℕ :=
  let w := analyze_wind env c lat lon
  let s := analyze_solar env w.2.1 lat lon
  let t := analyze_water env s.2.1 lat lon
  let wind_data := orEmpty w.1
  let solar_data := orEmpty s.1
  let water_data := orEmpty t.1
  let s_score := Doc.getNum solar_data ("score")
  let w_score := Doc.getNum wind_data ("score")
  let wt_score := Doc.getNum water_data ("composite_risk_score")
  let overall := overallScore s_score w_score wt_score
  (⟨wind_data, solar_data, water_data, overall, suitabilityRating overall,
    generateSiteInsights wind_data solar_data water_data,
    s_score, w_score, wt_score, lat, lon, now⟩,
   t.2.1, w.2.2 + s.2.2 + t.2.2)

end Domains

-- ============================================================
-- The legacy full analyzer (src/backend/assessment_service.py)
-- ============================================================

namespace Legacy

/-- `_clamp(v, lo, hi) = max(lo, min(hi, v))` (line 77). -/
def clamp (v lo hi : ℚ) : ℚ := max lo (min hi v)

/-- `_norm(v, lo, hi)` (lines 79-80): linear map into [0, 100] clamped at
the bounds (0 when the bounds coincide). -/
def norm (v lo hi : ℚ) : ℚ :=
  if hi = lo then 0 else clamp ((v - lo) / (hi - lo) * 100) 0 100

/-- `_compute_wind_score` (lines 140-145), with the four normalized
components (`pd_s`, `ws_s`, `cf_s`, `rix_s`) inlined. -/
def computeWindScore (pd100 rix ws100 cfBest : ℚ) : ℚ :=
  pyRound (norm pd100 0 600 * (40/100) + norm ws100 (35/10) 12 * (30/100)
    + norm cfBest 0 (5/10) * (20/100)
    + norm (5/10 - clamp rix 0 (5/10)) 0 (5/10) * (10/100)) 1

/-- The turbine labels of `_wind_cached` (lines 554-558). -/
def turbineLabels : List String :=
  [("IEC Class 1 — High Wind (>7.5 m/s)"),
   ("IEC Class 2 — Medium Wind (6.5–7.5 m/s)"),
   ("IEC Class 3 — Low Wind (5.0–6.5 m/s)")]

/-- `cf_best_i = [cf1, cf2, cf3].index(max(cf1, cf2, cf3))` (lines 552-553):
the first (lowest) index attaining the maximum — with no positivity guard. -/
def bestIdx (cf1 cf2 cf3 : ℚ) : ℕ :=
  if cf1 = max cf1 (max cf2 cf3) then 0
  else if cf2 = max cf1 (max cf2 cf3) then 1 else 2

/-- `turbine_labels[cf_best_i]` (line 584). -/
def bestClass (cf1 cf2 cf3 : ℚ) : String :=
  List.getD turbineLabels (bestIdx cf1 cf2 cf3) ("")

/-- The post-lookup part of the legacy wrappers:
`res = self._x_cached(...)`; `sanitized = self._sanitize(res) if res else
None` (`_sanitize` is the identity on `Doc`, which holds no NaN/Inf, and the
`if res` guard maps a `None` or falsy inner result to `None`);
`if sanitized: self.cache.set(...)`; `return sanitized`. `compute = none`
stands both for an inner `None` return and for an exception caught by the
wrapper — in either case no document is produced and the cache is
untouched. -/
def wrappedCompute (compute : Option Doc) (io : IOEnv) (c : DiskCache)
    (service : String) (lat lon : ℚ) : Option Doc × DiskCache :=
  match compute with
  | none => (none, c)
  | some res =>
    if res.truthy then
      (some res, DiskCache.set c io.setFail service lat lon res)
    else (none, c)

/-- The wrapper pattern shared by the legacy `analyze_solar` /
`analyze_wind` / `analyze_water` (lines 270-289, 465-484, 610-629):
cache lookup (`if cached: return cached`; a falsy cached document falls
through to recomputation), then `wrappedCompute`. -/
def wrappedAnalyze (compute : Option Doc) (io : IOEnv) (c : DiskCache)
    (service : String) (lat lon : ℚ) : Option Doc × DiskCache :=
  match DiskCache.get c io.getFail service lat lon with
  | some cached =>
    if cached.truthy then (some cached, c)
    else wrappedCompute compute io c service lat lon
  | none => wrappedCompute compute io c service lat lon

end Legacy

-- ============================================================
-- Support lemmas about the cache and the analyzer skeleton
-- ============================================================

lemma get_noFail (c : DiskCache) (srv : String) (lat lon : ℚ) :
    DiskCache.get c false srv lat lon = lookupEntry c.entries (getKey srv lat lon) := by
  cases h : lookupEntry c.entries (getKey srv lat lon) <;>
    simp [DiskCache.get, selectRow, h]

lemma computePath_ok {io : IOEnv} {ee : Bool} {srv : String}
    {comp : Except String Doc} {c : DiskCache} {lat lon : ℚ} {d : Doc}
    {c' : DiskCache} {n : ℕ}
    (h : computePath io ee srv comp c lat lon = (Except.ok d, c', n)) :
    comp = Except.ok d ∧ c' = DiskCache.set c io.setFail srv lat lon d ∧ n = 1 := by
  unfold computePath at h
  by_cases hee : ee = false
  · rw [if_pos hee] at h
    simp at h
  · rw [if_neg hee] at h
    cases hc : comp with
    | error e => rw [hc] at h; simp at h
    | ok r =>
      rw [hc] at h
      simp only [Prod.mk.injEq, Except.ok.injEq] at h
      obtain ⟨h1, h2, h3⟩ := h
      subst h1
      exact ⟨rfl, h2.symm, h3.symm⟩

lemma computePath_fst (io : IOEnv) (ee : Bool) (srv : String)
    (comp : Except String Doc) (c c2 : DiskCache) (lat lon lat2 lon2 : ℚ) :
    (computePath io ee srv comp c lat lon).1
      = (computePath io ee srv comp c2 lat2 lon2).1 := by
  unfold computePath
  split_ifs <;> cases comp <;> rfl

lemma cachedAnalyze_outcome_congr (io : IOEnv) (ee : Bool) (srv : String)
    (comp : Except String Doc) (c c2 : DiskCache) (lat lon : ℚ)
    (hl : DiskCache.get c io.getFail srv lat lon
        = DiskCache.get c2 io.getFail srv lat lon) :
    (cachedAnalyze io ee srv comp c lat lon).1
      = (cachedAnalyze io ee srv comp c2 lat lon).1 := by
  unfold cachedAnalyze
  rw [hl]
  cases DiskCache.get c2 io.getFail srv lat lon with
  | some cached =>
    show (if cached.truthy = true then ((Except.ok cached : Except String Doc), c, 0)
          else computePath io ee srv comp c lat lon).1
        = (if cached.truthy = true then ((Except.ok cached : Except String Doc), c2, 0)
          else computePath io ee srv comp c2 lat lon).1
    split_ifs with htr
    · rfl
    · exact computePath_fst io ee srv comp c c2 lat lon lat lon
  | none => exact computePath_fst io ee srv comp c c2 lat lon lat lon

lemma computePath_cache (io : IOEnv) (ee : Bool) (srv : String)
    (comp : Except String Doc) (c : DiskCache) (lat lon : ℚ) :
    (computePath io ee srv comp c lat lon).2.1 = c ∨
    ∃ d, comp = Except.ok d ∧
      (computePath io ee srv comp c lat lon).2.1
        = DiskCache.set c io.setFail srv lat lon d := by
  unfold computePath
  split_ifs with hee
  · left; rfl
  · cases hc : comp with
    | error e => left; rfl
    | ok r => right; exact ⟨r, rfl, rfl⟩

lemma cachedAnalyze_cache (io : IOEnv) (ee : Bool) (srv : String)
    (comp : Except String Doc) (c : DiskCache) (lat lon : ℚ) :
    (cachedAnalyze io ee srv comp c lat lon).2.1 = c ∨
    ∃ d, comp = Except.ok d ∧
      (cachedAnalyze io ee srv comp c lat lon).2.1
        = DiskCache.set c io.setFail srv lat lon d := by
  unfold cachedAnalyze
  cases DiskCache.get c io.getFail srv lat lon with
  | some cached =>
    show (if cached.truthy = true then ((Except.ok cached : Except String Doc), c, 0)
          else computePath io ee srv comp c lat lon).2.1 = c ∨
        ∃ d, comp = Except.ok d ∧
          (if cached.truthy = true then ((Except.ok cached : Except String Doc), c, 0)
            else computePath io ee srv comp c lat lon).2.1
            = DiskCache.set c io.setFail srv lat lon d
    split_ifs with htr
    · left; rfl
    · exact computePath_cache io ee srv comp c lat lon
  | none => exact computePath_cache io ee srv comp c lat lon

lemma get_set_other (c : DiskCache) (gf sf : Bool) (srv srv2 : String)
    (lat lon lat2 lon2 : ℚ) (d : Doc) (h : srv ≠ srv2) :
    DiskCache.get (DiskCache.set c sf srv2 lat2 lon2 d) gf srv lat lon
      = DiskCache.get c gf srv lat lon := by
  cases gf with
  | true => rfl
  | false =>
    cases sf with
    | true => rfl
    | false =>
      rw [get_noFail, get_noFail]
      exact lookupEntry_insertEntry_ne c.entries (getKey srv2 lat2 lon2)
        (getKey srv lat lon) d (fun hk => h (congrArg Prod.fst hk))

/-- The outcome of one analyzer is unchanged by a preceding analyzer run
under a different service tag (the three analyzers work on disjoint keys). -/
lemma cachedAnalyze_outcome_after (io : IOEnv) (ee : Bool) (srv srv2 : String)
    (comp comp2 : Except String Doc) (c : DiskCache) (lat lon : ℚ)
    (h : srv ≠ srv2) :
    (cachedAnalyze io ee srv comp
        ((cachedAnalyze io ee srv2 comp2 c lat lon).2.1) lat lon).1
      = (cachedAnalyze io ee srv comp c lat lon).1 := by
  rcases cachedAnalyze_cache io ee srv2 comp2 c lat lon with hc | ⟨d, _, hc⟩
  · rw [hc]
  · rw [hc]
    exact cachedAnalyze_outcome_congr io ee srv comp _ c lat lon
      (get_set_other c io.getFail io.setFail srv srv2 lat lon lat lon d h)

/-- Second call on a key already holding the successful result of the first call:
answered from the cache, byte-identical document, zero upstream queries —
for any second-call oracle outcome `comp2` and any coordinates that derive
the same cache key. -/
lemma cachedAnalyze_second (io : IOEnv) (ee : Bool) (srv : String)
    (comp comp2 : Except String Doc) (c c' : DiskCache)
    (lat lon lat' lon' : ℚ) (d : Doc) (n : ℕ)
    (hg : io.getFail = false) (hs : io.setFail = false)
    (ht : ∀ d0, comp = Except.ok d0 → d0.truthy = true)
    (hk : getKey srv lat' lon' = getKey srv lat lon)
    (h : cachedAnalyze io ee srv comp c lat lon = (Except.ok d, c', n)) :
    cachedAnalyze io ee srv comp2 c' lat' lon' = (Except.ok d, c', 0) := by
  unfold cachedAnalyze at h ⊢
  rw [hg] at h ⊢
  rw [get_noFail] at h
  rw [get_noFail, hk]
  cases hl : lookupEntry c.entries (getKey srv lat lon) with
  | some cached =>
    rw [hl] at h
    have h2 : (if cached.truthy = true
          then ((Except.ok cached : Except String Doc), c, 0)
          else computePath io ee srv comp c lat lon) = (Except.ok d, c', n) := h
    by_cases htr : cached.truthy = true
    · rw [if_pos htr] at h2
      simp only [Prod.mk.injEq, Except.ok.injEq] at h2
      obtain ⟨h3, h4, _⟩ := h2
      subst h3; subst h4
      rw [hl]
      show (if cached.truthy = true
            then ((Except.ok cached : Except String Doc), c, 0)
            else computePath io ee srv comp2 c lat' lon') = (Except.ok cached, c, 0)
      rw [if_pos htr]
    · rw [if_neg htr] at h2
      obtain ⟨hcomp, hc', _⟩ := computePath_ok h2
      have hd : d.truthy = true := ht d hcomp
      rw [hs] at hc'
      subst hc'
      rw [show lookupEntry (DiskCache.set c false srv lat lon d).entries
            (getKey srv lat lon) = some d from
          lookupEntry_insertEntry_self c.entries (getKey srv lat lon) d]
      show (if d.truthy = true
            then ((Except.ok d : Except String Doc),
              DiskCache.set c false srv lat lon d, 0)
            else computePath io ee srv comp2 (DiskCache.set c false srv lat lon d)
              lat' lon')
          = (Except.ok d, DiskCache.set c false srv lat lon d, 0)
      rw [if_pos hd]
  | none =>
    rw [hl] at h
    have h2 : computePath io ee srv comp c lat lon = (Except.ok d, c', n) := h
    obtain ⟨hcomp, hc', _⟩ := computePath_ok h2
    have hd : d.truthy = true := ht d hcomp
    rw [hs] at hc'
    subst hc'
    rw [show lookupEntry (DiskCache.set c false srv lat lon d).entries
          (getKey srv lat lon) = some d from
        lookupEntry_insertEntry_self c.entries (getKey srv lat lon) d]
    show (if d.truthy = true
          then ((Except.ok d : Except String Doc),
            DiskCache.set c false srv lat lon d, 0)
          else computePath io ee srv comp2 (DiskCache.set c false srv lat lon d)
            lat' lon')
        = (Except.ok d, DiskCache.set c false srv lat lon d, 0)
    rw [if_pos hd]

/-- A truthy cache hit is returned as-is with no upstream query. -/
lemma cachedAnalyze_hit (io : IOEnv) (ee : Bool) (srv : String)
    (comp : Except String Doc) (c : DiskCache) (lat lon : ℚ) (d : Doc)
    (hget : DiskCache.get c io.getFail srv lat lon = some d)
    (htr : d.truthy = true) :
    cachedAnalyze io ee srv comp c lat lon = (Except.ok d, c, 0) := by
  unfold cachedAnalyze
  rw [hget]
  show (if d.truthy = true then ((Except.ok d : Except String Doc), c, 0)
        else computePath io ee srv comp c lat lon) = (Except.ok d, c, 0)
  rw [if_pos htr]

lemma cachedAnalyze_wellFormed (io : IOEnv) (ee : Bool) (srv : String)
    (comp : Except String Doc) (c : DiskCache) (lat lon : ℚ)
    (ht : ∀ d, comp = Except.ok d → d.truthy = true)
    (hc : c.wellFormed = true) :
    ((cachedAnalyze io ee srv comp c lat lon).2.1).wellFormed = true := by
  rcases cachedAnalyze_cache io ee srv comp c lat lon with h | ⟨d, hd, h⟩
  · rw [h]; exact hc
  · rw [h]; exact wellFormed_set c io.setFail srv lat lon d hc (ht d hd)

-- ============================================================
-- Truthiness and score fields of the built documents
-- ============================================================

lemma truthy_obj_of_ne_nil {fs : List (String × Doc)} (h : fs ≠ []) :
    (Doc.obj fs).truthy = true := by
  cases fs with
  | nil => exact absurd rfl h
  | cons a l => rfl

lemma buildWindDoc_truthy (r : Domains.WindRaw) :
    (Domains.buildWindDoc r).truthy = true := rfl

lemma buildSolarDoc_truthy (r : Domains.SolarRaw) :
    (Domains.buildSolarDoc r).truthy = true := rfl

lemma buildWaterDoc_truthy (r : Domains.WaterRaw) :
    (Domains.buildWaterDoc r).truthy = true := rfl

lemma windCompute_truthy (env : Domains.Env) :
    ∀ d, Except.map Domains.buildWindDoc env.windOracle = Except.ok d →
      d.truthy = true := by
  intro d h
  cases ho : env.windOracle with
  | error e => rw [ho] at h; simp [Except.map] at h
  | ok r =>
    rw [ho] at h
    simp only [Except.map, Except.ok.injEq] at h
    rw [← h]
    exact buildWindDoc_truthy r

lemma solarCompute_truthy (env : Domains.Env) :
    ∀ d, Except.map Domains.buildSolarDoc env.solarOracle = Except.ok d →
      d.truthy = true := by
  intro d h
  cases ho : env.solarOracle with
  | error e => rw [ho] at h; simp [Except.map] at h
  | ok r =>
    rw [ho] at h
    simp only [Except.map, Except.ok.injEq] at h
    rw [← h]
    exact buildSolarDoc_truthy r

lemma waterCompute_truthy (env : Domains.Env) :
    ∀ d, Except.map Domains.buildWaterDoc env.waterOracle = Except.ok d →
      d.truthy = true := by
  intro d h
  cases ho : env.waterOracle with
  | error e => rw [ho] at h; simp [Except.map] at h
  | ok r =>
    rw [ho] at h
    simp only [Except.map, Except.ok.injEq] at h
    rw [← h]
    exact buildWaterDoc_truthy r

lemma getNum_buildWindDoc (r : Domains.WindRaw) :
    Doc.getNum (Domains.buildWindDoc r) ("score")
      = Domains.windScoreBands (Domains.orDef r.pd 0) := rfl

lemma getNum_buildSolarDoc (r : Domains.SolarRaw) :
    Doc.getNum (Domains.buildSolarDoc r) ("score")
      = Domains.solarScoreBands (Domains.orDef r.ghi 0) := rfl

lemma getNum_buildWaterDoc (r : Domains.WaterRaw) :
    Doc.getNum (Domains.buildWaterDoc r) ("composite_risk_score")
      = Domains.waterComposite (Domains.orDef r.grace 0) (Domains.orDef r.pdsi 0) := rfl

-- ============================================================
-- Concrete environments for witnesses and counterexamples
-- ============================================================

def ioOK : IOEnv := ⟨false, false⟩

def c0 : DiskCache := ⟨[]⟩

namespace Domains

def rawZero : WindRaw :=
  ⟨some 0, some 0, some 0, some 0, some 0, some 0, some 0, some 0, some 0⟩

def srawZero : SolarRaw := ⟨some 0, some 0, some 0, some 0, some 0⟩

def wrawZero : WaterRaw := ⟨some 0, some 0⟩

/-- Environment with every upstream query succeeding on all-zero rasters. -/
def envOK : Env := ⟨Except.ok rawZero, Except.ok srawZero, Except.ok wrawZero, true, ioOK⟩

/-- Environment with Earth Engine credentials missing: every analyzer
raises `RuntimeError` from `_require_ee`, a total upstream outage. -/
def envNoEE : Env := ⟨Except.ok rawZero, Except.ok srawZero, Except.ok wrawZero, false, ioOK⟩

/-- Wind raster with power density 650 W/m² and everything else zero. -/
def raw650 : WindRaw :=
  ⟨some 0, some 650, some 0, some 0, some 0, some 0, some 0, some 0, some 0⟩

def windDoc90 : Doc := Doc.obj [(("score"), Doc.num 90)]

def solarDoc80 : Doc := Doc.obj [(("score"), Doc.num 80)]

def waterDoc70 : Doc := Doc.obj [(("composite_risk_score"), Doc.num 70)]

/-- A cache already holding analyzer results with wind score 90, solar score
80 and water composite 70 at the origin. -/
def cPre : DiskCache :=
  ⟨[(getKey ("wind") 0 0, windDoc90),
    (getKey ("solar") 0 0, solarDoc80),
    (getKey ("water") 0 0, waterDoc70)]⟩

end Domains

/-- A cache holding a falsy (empty) document under the wind key. -/
def cFalsy : DiskCache := ⟨[(getKey ("wind") 0 0, Doc.obj [])]⟩

-- ============================================================
-- Claim theorems
-- ============================================================

/-- C1: the orchestrator `analyze(lat, lon)` is a total function (it returns
a composite assessment for every environment, cache and coordinates — no
exception ever propagates); the document of each domain equals the outcome of
the own analyzer of that domain on the original cache, so a failing analyzer
does not disturb the other two; a domain whose analyzer raises is replaced
by the empty dict and contributes score 0; and when all three analyzers
raise the report is all-zero and rated CHALLENGING. -/
theorem C1_orchestrator_failure_isolation (env : Domains.Env) (c : DiskCache)
    (lat lon : ℚ) (now : String) :
    (Domains.analyze env c lat lon now).1.wind
        = Domains.orEmpty (Domains.analyze_wind env c lat lon).1 ∧
    (Domains.analyze env c lat lon now).1.solar
        = Domains.orEmpty (Domains.analyze_solar env c lat lon).1 ∧
    (Domains.analyze env c lat lon now).1.water
        = Domains.orEmpty (Domains.analyze_water env c lat lon).1 ∧
    (∀ e, (Domains.analyze_wind env c lat lon).1 = Except.error e →
        (Domains.analyze env c lat lon now).1.comp_wind = 0 ∧
        (Domains.analyze env c lat lon now).1.wind = Doc.obj []) ∧
    (∀ e, (Domains.analyze_solar env c lat lon).1 = Except.error e →
        (Domains.analyze env c lat lon now).1.comp_solar = 0 ∧
        (Domains.analyze env c lat lon now).1.solar = Doc.obj []) ∧
    (∀ e, (Domains.analyze_water env c lat lon).1 = Except.error e →
        (Domains.analyze env c lat lon now).1.comp_water = 0 ∧
        (Domains.analyze env c lat lon now).1.water = Doc.obj []) ∧
    ((∃ e, (Domains.analyze_wind env c lat lon).1 = Except.error e) →
      (∃ e, (Domains.analyze_solar env c lat lon).1 = Except.error e) →
      (∃ e, (Domains.analyze_water env c lat lon).1 = Except.error e) →
        (Domains.analyze env c lat lon now).1.wind = Doc.obj [] ∧
        (Domains.analyze env c lat lon now).1.solar = Doc.obj [] ∧
        (Domains.analyze env c lat lon now).1.water = Doc.obj [] ∧
        (Domains.analyze env c lat lon now).1.overall_score = 0 ∧
        (Domains.analyze env c lat lon now).1.rating = "CHALLENGING") := by
  have hsolar : (Domains.analyze_solar env
        ((Domains.analyze_wind env c lat lon).2.1) lat lon).1
      = (Domains.analyze_solar env c lat lon).1 :=
    cachedAnalyze_outcome_after env.io env.eeInit ("solar") ("wind")
      (Except.map Domains.buildSolarDoc env.solarOracle)
      (Except.map Domains.buildWindDoc env.windOracle) c lat lon (by decide)
  have hwater1 : (Domains.analyze_water env
        ((Domains.analyze_solar env ((Domains.analyze_wind env c lat lon).2.1)
          lat lon).2.1) lat lon).1
      = (Domains.analyze_water env
          ((Domains.analyze_wind env c lat lon).2.1) lat lon).1 :=
    cachedAnalyze_outcome_after env.io env.eeInit ("water") ("solar")
      (Except.map Domains.buildWaterDoc env.waterOracle)
      (Except.map Domains.buildSolarDoc env.solarOracle)
      ((Domains.analyze_wind env c lat lon).2.1) lat lon (by decide)
  have hwater2 : (Domains.analyze_water
        ((⟨env.windOracle, env.solarOracle, env.waterOracle, env.eeInit, env.io⟩ :
          Domains.Env))
        ((Domains.analyze_wind env c lat lon).2.1) lat lon).1
      = (Domains.analyze_water env c lat lon).1 :=
    cachedAnalyze_outcome_after env.io env.eeInit ("water") ("wind")
      (Except.map Domains.buildWaterDoc env.waterOracle)
      (Except.map Domains.buildWindDoc env.windOracle) c lat lon (by decide)
  have hwater : (Domains.analyze_water env
        ((Domains.analyze_solar env ((Domains.analyze_wind env c lat lon).2.1)
          lat lon).2.1) lat lon).1
      = (Domains.analyze_water env c lat lon).1 := hwater1.trans hwater2
  have hwind_eq : (Domains.analyze env c lat lon now).1.wind
      = Domains.orEmpty (Domains.analyze_wind env c lat lon).1 := rfl
  have hsolar_eq : (Domains.analyze env c lat lon now).1.solar
      = Domains.orEmpty (Domains.analyze_solar env c lat lon).1 :=
    congrArg Domains.orEmpty hsolar
  have hwater_eq : (Domains.analyze env c lat lon now).1.water
      = Domains.orEmpty (Domains.analyze_water env c lat lon).1 :=
    congrArg Domains.orEmpty hwater
  have hcompw : (Domains.analyze env c lat lon now).1.comp_wind
      = Doc.getNum ((Domains.analyze env c lat lon now).1.wind) ("score") := rfl
  have hcomps : (Domains.analyze env c lat lon now).1.comp_solar
      = Doc.getNum ((Domains.analyze env c lat lon now).1.solar) ("score") := rfl
  have hcompt : (Domains.analyze env c lat lon now).1.comp_water
      = Doc.getNum ((Domains.analyze env c lat lon now).1.water)
          ("composite_risk_score") := rfl
  have hov : (Domains.analyze env c lat lon now).1.overall_score
      = Domains.overallScore
          (Doc.getNum ((Domains.analyze env c lat lon now).1.solar) ("score"))
          (Doc.getNum ((Domains.analyze env c lat lon now).1.wind) ("score"))
          (Doc.getNum ((Domains.analyze env c lat lon now).1.water)
            ("composite_risk_score")) := rfl
  refine ⟨hwind_eq, hsolar_eq, hwater_eq, ?_, ?_, ?_, ?_⟩
  · intro e he
    have hw0 : (Domains.analyze env c lat lon now).1.wind = Doc.obj [] := by
      rw [hwind_eq, he]; rfl
    exact ⟨by rw [hcompw, hw0]; rfl, hw0⟩
  · intro e he
    have hs0 : (Domains.analyze env c lat lon now).1.solar = Doc.obj [] := by
      rw [hsolar_eq, he]; rfl
    exact ⟨by rw [hcomps, hs0]; rfl, hs0⟩
  · intro e he
    have ht0 : (Domains.analyze env c lat lon now).1.water = Doc.obj [] := by
      rw [hwater_eq, he]; rfl
    exact ⟨by rw [hcompt, ht0]; rfl, ht0⟩
  · rintro ⟨e1, h1⟩ ⟨e2, h2⟩ ⟨e3, h3⟩
    have hw0 : (Domains.analyze env c lat lon now).1.wind = Doc.obj [] := by
      rw [hwind_eq, h1]; rfl
    have hs0 : (Domains.analyze env c lat lon now).1.solar = Doc.obj [] := by
      rw [hsolar_eq, h2]; rfl
    have ht0 : (Domains.analyze env c lat lon now).1.water = Doc.obj [] := by
      rw [hwater_eq, h3]; rfl
    have hov0 : (Domains.analyze env c lat lon now).1.overall_score = 0 := by
      rw [hov, hw0, hs0, ht0]
      show Domains.overallScore 0 0 0 = 0
      unfold Domains.overallScore
      rw [show (0:ℚ) * (35/100) + 0 * (35/100) + 0 * (30/100) = 0 from by norm_num,
        @pyRound_eval _ _ 0 (by norm_num) (by norm_num) (by norm_num)]
      norm_num
    refine ⟨hw0, hs0, ht0, hov0, ?_⟩
    have hrat : (Domains.analyze env c lat lon now).1.rating
        = Domains.suitabilityRating
            ((Domains.analyze env c lat lon now).1.overall_score) := rfl
    rw [hrat, hov0]
    norm_num [Domains.suitabilityRating]

/-- C1 witness: with Earth Engine credentials missing every analyzer raises,
and the orchestrator still returns an all-zero CHALLENGING report. -/
theorem C1_witness :
    (Domains.analyze Domains.envNoEE c0 0 0 ("t")).1.overall_score = 0 ∧
    (Domains.analyze Domains.envNoEE c0 0 0 ("t")).1.rating = "CHALLENGING" := by
  have h := (C1_orchestrator_failure_isolation Domains.envNoEE c0 0 0
      ("t")).2.2.2.2.2.2 ⟨eeMsg, rfl⟩ ⟨eeMsg, rfl⟩ ⟨eeMsg, rfl⟩
  exact ⟨h.2.2.2.1, h.2.2.2.2⟩

/-- C2: the composite score is `round(0.35*s + 0.35*w + 0.30*t, 1)` of the
three domain scores as read back from the returned documents, and on the
concrete inputs wind=90, solar=80, water=70 (preloaded in the cache) the
overall score is 80.5 with rating PREMIUM SITE. -/
theorem C2_composite_score_formula (env : Domains.Env) (c : DiskCache)
    (lat lon : ℚ) (now : String) :
    ((Domains.analyze env c lat lon now).1.overall_score
      = pyRound ((35/100) * Doc.getNum ((Domains.analyze env c lat lon now).1.solar) ("score")
          + (35/100) * Doc.getNum ((Domains.analyze env c lat lon now).1.wind) ("score")
          + (30/100) * Doc.getNum ((Domains.analyze env c lat lon now).1.water)
              ("composite_risk_score")) 1) ∧
    (Domains.analyze Domains.envOK Domains.cPre 0 0 now).1.overall_score = 805/10 ∧
    (Domains.analyze Domains.envOK Domains.cPre 0 0 now).1.rating = "PREMIUM SITE" := by
  have hwg : DiskCache.get Domains.cPre false ("wind") 0 0 = some Domains.windDoc90 := by
    simp [DiskCache.get, selectRow, Domains.cPre, lookupEntry]
  have hsg : DiskCache.get Domains.cPre false ("solar") 0 0 = some Domains.solarDoc80 := by
    simp [DiskCache.get, selectRow, Domains.cPre, lookupEntry, getKey, Prod.mk.injEq]
  have htg : DiskCache.get Domains.cPre false ("water") 0 0 = some Domains.waterDoc70 := by
    simp [DiskCache.get, selectRow, Domains.cPre, lookupEntry, getKey, Prod.mk.injEq]
  have hweq : Domains.analyze_wind Domains.envOK Domains.cPre 0 0
      = (Except.ok Domains.windDoc90, Domains.cPre, 0) :=
    cachedAnalyze_hit Domains.envOK.io Domains.envOK.eeInit ("wind") _
      Domains.cPre 0 0 Domains.windDoc90 hwg rfl
  have hseq : Domains.analyze_solar Domains.envOK Domains.cPre 0 0
      = (Except.ok Domains.solarDoc80, Domains.cPre, 0) :=
    cachedAnalyze_hit Domains.envOK.io Domains.envOK.eeInit ("solar") _
      Domains.cPre 0 0 Domains.solarDoc80 hsg rfl
  have hteq : Domains.analyze_water Domains.envOK Domains.cPre 0 0
      = (Except.ok Domains.waterDoc70, Domains.cPre, 0) :=
    cachedAnalyze_hit Domains.envOK.io Domains.envOK.eeInit ("water") _
      Domains.cPre 0 0 Domains.waterDoc70 htg rfl
  have hval : (Domains.analyze Domains.envOK Domains.cPre 0 0 now).1.overall_score
      = Domains.overallScore 80 90 70 := by
    simp only [Domains.analyze, hweq, hseq, hteq]
    rfl
  have h805 : Domains.overallScore 80 90 70 = 805/10 := by
    unfold Domains.overallScore
    rw [show (80:ℚ) * (35/100) + 90 * (35/100) + 70 * (30/100) = 161/2 from by norm_num,
      @pyRound_eval _ _ 805 (by norm_num) (by norm_num) (by norm_num)]
    norm_num
  refine ⟨?_, hval.trans h805, ?_⟩
  · show Domains.overallScore
        (Doc.getNum ((Domains.analyze env c lat lon now).1.solar) ("score"))
        (Doc.getNum ((Domains.analyze env c lat lon now).1.wind) ("score"))
        (Doc.getNum ((Domains.analyze env c lat lon now).1.water)
          ("composite_risk_score")) = _
    unfold Domains.overallScore
    congr 1
    ring
  · have hrat : (Domains.analyze Domains.envOK Domains.cPre 0 0 now).1.rating
        = Domains.suitabilityRating
            ((Domains.analyze Domains.envOK Domains.cPre 0 0 now).1.overall_score) := rfl
    rw [hrat, hval.trans h805]
    norm_num [Domains.suitabilityRating]

/-- C3: the rating is a pure function of the overall score with thresholds
≥75 → PREMIUM SITE, ≥60 → OPTIMAL, ≥45 → VIABLE, else CHALLENGING, and the
boundary values 75.0 / 74.9 / 59.9 / 44.9 rate as claimed. -/
theorem C3_rating_thresholds (env : Domains.Env) (c : DiskCache)
    (lat lon : ℚ) (now : String) (q : ℚ) :
    ((Domains.analyze env c lat lon now).1.rating
      = Domains.suitabilityRating ((Domains.analyze env c lat lon now).1.overall_score)) ∧
    (75 ≤ q → Domains.suitabilityRating q = "PREMIUM SITE") ∧
    (60 ≤ q → q < 75 → Domains.suitabilityRating q = "OPTIMAL") ∧
    (45 ≤ q → q < 60 → Domains.suitabilityRating q = "VIABLE") ∧
    (q < 45 → Domains.suitabilityRating q = "CHALLENGING") ∧
    Domains.suitabilityRating 75 = "PREMIUM SITE" ∧
    Domains.suitabilityRating (749/10) = "OPTIMAL" ∧
    Domains.suitabilityRating (599/10) = "VIABLE" ∧
    Domains.suitabilityRating (449/10) = "CHALLENGING" := by
  refine ⟨rfl, ?_, ?_, ?_, ?_, by norm_num [Domains.suitabilityRating],
    by norm_num [Domains.suitabilityRating], by norm_num [Domains.suitabilityRating],
    by norm_num [Domains.suitabilityRating]⟩
  · intro h
    unfold Domains.suitabilityRating
    rw [if_pos (show q ≥ 75 from h)]
  · intro h60 h75
    unfold Domains.suitabilityRating
    rw [if_neg (show ¬ q ≥ 75 from not_le.mpr h75), if_pos (show q ≥ 60 from h60)]
  · intro h45 h60
    unfold Domains.suitabilityRating
    rw [if_neg (show ¬ q ≥ 75 from not_le.mpr (h60.trans (by norm_num))),
      if_neg (show ¬ q ≥ 60 from not_le.mpr h60), if_pos (show q ≥ 45 from h45)]
  · intro h45
    unfold Domains.suitabilityRating
    rw [if_neg (show ¬ q ≥ 75 from not_le.mpr (h45.trans (by norm_num))),
      if_neg (show ¬ q ≥ 60 from not_le.mpr (h45.trans (by norm_num))),
      if_neg (show ¬ q ≥ 45 from not_le.mpr h45)]

/-- C3 witness at a concrete score. -/
theorem C3_witness : Domains.suitabilityRating 80 = "PREMIUM SITE" :=
  (C3_rating_thresholds Domains.envOK c0 0 0 ("t") 80).2.1 (by norm_num)

/-- C4: with the cache storage healthy, a second analyzer call for the same
(domain, lat, lon) after a successful first call returns the byte-identical
document, leaves the cache untouched, and issues zero upstream queries (the
third component counts upstream queries). -/
theorem C4_cache_idempotence (env : Domains.Env) (c : DiskCache) (lat lon : ℚ)
    (hg : env.io.getFail = false) (hs : env.io.setFail = false) :
    (∀ d c' n, Domains.analyze_wind env c lat lon = (Except.ok d, c', n) →
        Domains.analyze_wind env c' lat lon = (Except.ok d, c', 0)) ∧
    (∀ d c' n, Domains.analyze_solar env c lat lon = (Except.ok d, c', n) →
        Domains.analyze_solar env c' lat lon = (Except.ok d, c', 0)) ∧
    (∀ d c' n, Domains.analyze_water env c lat lon = (Except.ok d, c', n) →
        Domains.analyze_water env c' lat lon = (Except.ok d, c', 0)) := by
  refine ⟨?_, ?_, ?_⟩ <;> intro d c' n h
  · exact cachedAnalyze_second env.io env.eeInit ("wind") _ _ c c' lat lon lat lon
      d n hg hs (windCompute_truthy env) rfl h
  · exact cachedAnalyze_second env.io env.eeInit ("solar") _ _ c c' lat lon lat lon
      d n hg hs (solarCompute_truthy env) rfl h
  · exact cachedAnalyze_second env.io env.eeInit ("water") _ _ c c' lat lon lat lon
      d n hg hs (waterCompute_truthy env) rfl h

/-- The wind document computed by the all-zero environment. -/
def windDocZero : Doc := Domains.buildWindDoc Domains.rawZero

/-- The cache state after the first wind call of `envOK` on an empty cache. -/
def cAfterWind : DiskCache := DiskCache.set c0 false ("wind") 0 0 windDocZero

/-- C4 witness: after a concrete successful first wind call the second call
returns the identical document from the cache with zero upstream queries. -/
theorem C4_witness :
    Domains.analyze_wind Domains.envOK cAfterWind 0 0
      = (Except.ok windDocZero, cAfterWind, 0) :=
  (C4_cache_idempotence Domains.envOK c0 0 0 rfl rfl).1 windDocZero cAfterWind 1 rfl

/-- C5 counterexample: the two latitudes 0.00004° and 0.00006° differ by
0.00002° < 0.00005°, yet they straddle the 4-decimal rounding boundary, so
`_get_key` derives distinct keys and the second request misses the cache and
issues one upstream query again instead of reusing the first result. -/
theorem C5_counterexample :
    |(4/100000 : ℚ) - 6/100000| < 5/100000 ∧
    getKey ("wind") (4/100000) 0 ≠ getKey ("wind") (6/100000) 0 ∧
    (Domains.analyze_wind Domains.envOK
        ((Domains.analyze_wind Domains.envOK c0 (4/100000) 0).2.1)
        (6/100000) 0).2.2 = 1 := by
  have h4 : pyRound (4/100000) 4 = 0 := by
    rw [@pyRound_eval _ _ 0 (by norm_num) (by norm_num) (by norm_num)]
    norm_num
  have h6 : pyRound (6/100000) 4 = 1/10000 := by
    rw [@pyRound_eval_up _ _ 0 (by norm_num) (by norm_num) (by norm_num)]
    norm_num
  have hne : getKey ("wind") (4/100000) 0 ≠ getKey ("wind") (6/100000) 0 := by
    simp only [getKey, h4, h6, ne_eq, Prod.mk.injEq, not_and]
    intro _ h
    norm_num at h
  refine ⟨by rw [abs_sub_lt_iff]; constructor <;> norm_num, hne, ?_⟩
  have h1 : Domains.analyze_wind Domains.envOK c0 (4/100000) 0
      = (Except.ok windDocZero,
         DiskCache.set c0 false ("wind") (4/100000) 0 windDocZero, 1) := rfl
  rw [h1]
  show (Domains.analyze_wind Domains.envOK
      (DiskCache.set c0 false ("wind") (4/100000) 0 windDocZero) (6/100000) 0).2.2 = 1
  have hget : DiskCache.get
      (DiskCache.set c0 false ("wind") (4/100000) 0 windDocZero)
      Domains.envOK.io.getFail ("wind") (6/100000) 0 = none := by
    simp only [Domains.envOK, ioOK]
    simp [DiskCache.get, selectRow, DiskCache.set, insertRow, insertEntry, c0,
      lookupEntry, hne]
  unfold Domains.analyze_wind cachedAnalyze
  rw [hget]
  rfl

/-- C5 amended: two coordinate pairs whose latitudes and longitudes each
round (Python `round`, 4 decimal places) to the same values derive the same
cache key, the cache lookups coincide, and a request at the second pair
after a successful request at the first is answered from the cache with the
identical document and zero upstream queries. Pairs that are merely within
0.00005° of each other can straddle a rounding boundary and get distinct
keys (see the counterexample). -/
theorem C5_rounded_coordinates_share_key (service : String)
    (lat lon lat' lon' : ℚ)
    (h1 : pyRound lat 4 = pyRound lat' 4) (h2 : pyRound lon 4 = pyRound lon' 4) :
    getKey service lat lon = getKey service lat' lon' ∧
    (∀ c gf, DiskCache.get c gf service lat lon
        = DiskCache.get c gf service lat' lon') ∧
    (∀ ee comp comp2 c c' d n,
      (∀ d0, comp = Except.ok d0 → d0.truthy = true) →
      cachedAnalyze ⟨false, false⟩ ee service comp c lat lon = (Except.ok d, c', n) →
      cachedAnalyze ⟨false, false⟩ ee service comp2 c' lat' lon'
        = (Except.ok d, c', 0)) := by
  have hkey : getKey service lat lon = getKey service lat' lon' := by
    unfold getKey
    rw [h1, h2]
  refine ⟨hkey, ?_, ?_⟩
  · intro c gf
    unfold DiskCache.get
    rw [hkey]
  · intro ee comp comp2 c c' d n ht h
    exact cachedAnalyze_second ⟨false, false⟩ ee service comp comp2 c c'
      lat lon lat' lon' d n rfl rfl ht hkey.symm h

/-- C5 witness: 0.00004° and 0.000041° round to the same 4-decimal value and
share the key. -/
theorem C5_witness : getKey ("wind") (4/100000) 0 = getKey ("wind") (41/1000000) 0 :=
  (C5_rounded_coordinates_share_key ("wind") (4/100000) 0 (41/1000000) 0
    (by rw [@pyRound_eval _ _ 0 (by norm_num) (by norm_num) (by norm_num),
          @pyRound_eval _ _ 0 (by norm_num) (by norm_num) (by norm_num)])
    rfl).1

/-- C6 counterexample: on the degenerate input in which every raw physical
metric is zero the analyzers do not score 0: the wind score is the lowest
power-density band 10, the solar score the lowest GHI band 25, and the water
composite is 50 (both normalized water signals sit mid-scale at zero). -/
theorem C6_counterexample :
    Doc.getNum (Domains.buildWindDoc Domains.rawZero) ("score") = 10 ∧
    Doc.getNum (Domains.buildSolarDoc Domains.srawZero) ("score") = 25 ∧
    Doc.getNum (Domains.buildWaterDoc Domains.wrawZero) ("composite_risk_score") = 50 ∧
    ¬ Doc.getNum (Domains.buildWindDoc Domains.rawZero) ("score") = 0 := by
  have hw : Doc.getNum (Domains.buildWindDoc Domains.rawZero) ("score") = 10 := by
    rw [getNum_buildWindDoc]
    norm_num [Domains.rawZero, Domains.orDef, Domains.windScoreBands]
  have hs : Doc.getNum (Domains.buildSolarDoc Domains.srawZero) ("score") = 25 := by
    rw [getNum_buildSolarDoc]
    norm_num [Domains.srawZero, Domains.orDef, Domains.solarScoreBands]
  have hwc : Domains.waterComposite 0 0 = 50 := by
    unfold Domains.waterComposite
    rw [show Domains.graceNorm 0 * (5/10) + Domains.pdsiNorm 0 * (5/10) = 50 from by
        norm_num [Domains.graceNorm, Domains.pdsiNorm],
      @pyRound_eval _ _ 500 (by norm_num) (by norm_num) (by norm_num)]
    norm_num
  have ht : Doc.getNum (Domains.buildWaterDoc Domains.wrawZero)
      ("composite_risk_score") = 50 := by
    rw [getNum_buildWaterDoc]
    rw [show Domains.orDef Domains.wrawZero.grace 0 = 0 from by
        norm_num [Domains.wrawZero, Domains.orDef],
      show Domains.orDef Domains.wrawZero.pdsi 0 = 0 from by
        norm_num [Domains.wrawZero, Domains.orDef]]
    exact hwc
  exact ⟨hw, hs, ht, by rw [hw]; norm_num⟩

/-- C6 amended: every computed score lies in [0, 100] — the wind and solar
band scores for any power density / GHI, the water composite for any GRACE
and PDSI values, and the overall score whenever its three components are in
[0, 100] — but the degenerate all-zero input yields wind 10, solar 25 and
water 50, not 0. -/
theorem C6_score_bounds :
    (∀ pd : ℚ, 0 ≤ Domains.windScoreBands pd ∧ Domains.windScoreBands pd ≤ 100) ∧
    (∀ r : Domains.WindRaw, Doc.getNum (Domains.buildWindDoc r) ("score")
        = Domains.windScoreBands (Domains.orDef r.pd 0)) ∧
    (∀ ghi : ℚ, 0 ≤ Domains.solarScoreBands ghi ∧ Domains.solarScoreBands ghi ≤ 100) ∧
    (∀ g p : ℚ, 0 ≤ Domains.waterComposite g p ∧ Domains.waterComposite g p ≤ 100) ∧
    (∀ s w t : ℚ, 0 ≤ s → s ≤ 100 → 0 ≤ w → w ≤ 100 → 0 ≤ t → t ≤ 100 →
        0 ≤ Domains.overallScore s w t ∧ Domains.overallScore s w t ≤ 100) ∧
    (Domains.windScoreBands 0 = 10 ∧ Domains.solarScoreBands 0 = 25 ∧
      Domains.waterComposite 0 0 = 50) := by
  have hwater : ∀ g p : ℚ, 0 ≤ Domains.waterComposite g p ∧
      Domains.waterComposite g p ≤ 100 := by
    intro g p
    have hg1 : 0 ≤ Domains.graceNorm g := le_max_left 0 _
    have hg2 : Domains.graceNorm g ≤ 100 := by
      unfold Domains.graceNorm
      exact max_le (by norm_num) (min_le_left _ _)
    have hp1 : 0 ≤ Domains.pdsiNorm p := le_max_left 0 _
    have hp2 : Domains.pdsiNorm p ≤ 100 := by
      unfold Domains.pdsiNorm
      exact max_le (by norm_num) (min_le_left _ _)
    unfold Domains.waterComposite
    exact pyRound_one_mem (by linarith) (by linarith)
  refine ⟨?_, getNum_buildWindDoc, ?_, hwater, ?_, ?_, ?_, ?_⟩
  · intro pd
    unfold Domains.windScoreBands
    split_ifs <;> norm_num
  · intro ghi
    unfold Domains.solarScoreBands
    split_ifs <;> norm_num
  · intro s w t hs0 hs1 hw0 hw1 ht0 ht1
    unfold Domains.overallScore
    exact pyRound_one_mem (by linarith) (by linarith)
  · norm_num [Domains.windScoreBands]
  · norm_num [Domains.solarScoreBands]
  · unfold Domains.waterComposite
    rw [show Domains.graceNorm 0 * (5/10) + Domains.pdsiNorm 0 * (5/10) = 50 from by
        norm_num [Domains.graceNorm, Domains.pdsiNorm],
      @pyRound_eval _ _ 500 (by norm_num) (by norm_num) (by norm_num)]
    norm_num

/-- C6 witness: the overall-score bound at concrete mid-scale components. -/
theorem C6_witness :
    0 ≤ Domains.overallScore 50 50 50 ∧ Domains.overallScore 50 50 50 ≤ 100 :=
  (C6_score_bounds).2.2.2.2.1 50 50 50 (by norm_num) (by norm_num) (by norm_num)
    (by norm_num) (by norm_num) (by norm_num)

/-- C7: a storage I/O error on cache `get` is treated as a miss (the call
returns `None` and the analyzer takes the compute path), and a storage error
on `set` is swallowed with the stored contents unchanged (the resulting
cache of the analyzer is the one it started with); both operations are total, so
no storage failure propagates to the caller of the analyzer. -/
theorem C7_cache_fault_tolerance (c : DiskCache) (service : String)
    (lat lon : ℚ) (v : Doc) (ee : Bool) (comp : Except String Doc) (sf gf : Bool) :
    DiskCache.get c true service lat lon = none ∧
    DiskCache.set c true service lat lon v = c ∧
    cachedAnalyze ⟨true, sf⟩ ee service comp c lat lon
      = computePath ⟨true, sf⟩ ee service comp c lat lon ∧
    (cachedAnalyze ⟨gf, true⟩ ee service comp c lat lon).2.1 = c := by
  refine ⟨rfl, rfl, rfl, ?_⟩
  rcases cachedAnalyze_cache ⟨gf, true⟩ ee service comp c lat lon with h | ⟨d, _, h⟩
  · exact h
  · rw [h]; rfl

/-- C8 counterexample: the app-domains wind analyzer at power density 650
(all other raw metrics zero) returns score 90 from its power-density bands,
while the weighted formula of the claim evaluates to 50 at the same raw inputs —
so the wind score does not equal the formula for every wind analysis
result. -/
theorem C8_counterexample :
    Doc.getNum (Domains.buildWindDoc Domains.raw650) ("score") = 90 ∧
    pyRound ((40/100) * Legacy.norm 650 0 600 + (30/100) * Legacy.norm 0 (35/10) 12
      + (20/100) * Legacy.norm 0 0 (5/10)
      + (10/100) * Legacy.norm (5/10 - Legacy.clamp 0 0 (5/10)) 0 (5/10)) 1 = 50 ∧
    Legacy.computeWindScore 650 0 0 0 = 50 ∧
    (90 : ℚ) ≠ 50 := by
  have hn1 : Legacy.norm 650 0 600 = 100 := by
    norm_num [Legacy.norm, Legacy.clamp, min_def, max_def]
  have hn2 : Legacy.norm 0 (35/10) 12 = 0 := by
    norm_num [Legacy.norm, Legacy.clamp, min_def, max_def]
  have hn3 : Legacy.norm 0 0 (5/10) = 0 := by
    norm_num [Legacy.norm, Legacy.clamp, min_def, max_def]
  have hn4 : Legacy.norm (5/10 - Legacy.clamp 0 0 (5/10)) 0 (5/10) = 100 := by
    norm_num [Legacy.norm, Legacy.clamp, min_def, max_def]
  refine ⟨?_, ?_, ?_, by norm_num⟩
  · rw [getNum_buildWindDoc]
    norm_num [Domains.raw650, Domains.orDef, Domains.windScoreBands]
  · rw [hn1, hn2, hn3, hn4,
      show (40/100 : ℚ) * 100 + (30/100) * 0 + (20/100) * 0 + (10/100) * 100 = 50
        from by norm_num,
      @pyRound_eval _ _ 500 (by norm_num) (by norm_num) (by norm_num)]
    norm_num
  · unfold Legacy.computeWindScore
    rw [hn1, hn2, hn3, hn4,
      show (100:ℚ) * (40/100) + 0 * (30/100) + 0 * (20/100) + 100 * (10/100) = 50
        from by norm_num,
      @pyRound_eval _ _ 500 (by norm_num) (by norm_num) (by norm_num)]
    norm_num

/-- C8 amended: the legacy `_compute_wind_score` equals the
weighted formula of the claim rounded to one decimal; the app-domains wind
score is instead the power-density band score (the score field of the wind
document always equals `windScoreBands` of the power density). -/
theorem C8_wind_score_formula (pd rix ws cf : ℚ) :
    (Legacy.computeWindScore pd rix ws cf
      = pyRound ((40/100) * Legacy.norm pd 0 600 + (30/100) * Legacy.norm ws (35/10) 12
          + (20/100) * Legacy.norm cf 0 (5/10)
          + (10/100) * Legacy.norm (5/10 - Legacy.clamp rix 0 (5/10)) 0 (5/10)) 1) ∧
    (∀ r : Domains.WindRaw, Doc.getNum (Domains.buildWindDoc r) ("score")
        = Domains.windScoreBands (Domains.orDef r.pd 0)) := by
  constructor
  · unfold Legacy.computeWindScore
    congr 1
    ring
  · exact getNum_buildWindDoc

lemma wrappedCompute_truthy (compute : Option Doc) (io : IOEnv) (c : DiskCache)
    (srv : String) (lat lon : ℚ) (d : Doc)
    (h : (Legacy.wrappedCompute compute io c srv lat lon).1 = some d) :
    d.truthy = true := by
  unfold Legacy.wrappedCompute at h
  cases hc : compute with
  | none =>
    rw [hc] at h
    exact Option.noConfusion (show (none : Option Doc) = some d from h)
  | some res =>
    rw [hc] at h
    have h2 : (if res.truthy = true
        then ((some res : Option Doc), DiskCache.set c io.setFail srv lat lon res)
        else ((none : Option Doc), c)).1 = some d := h
    by_cases htr : res.truthy = true
    · rw [if_pos htr] at h2
      have h3 : (some res : Option Doc) = some d := h2
      obtain rfl : res = d := by injection h3
      exact htr
    · rw [if_neg htr] at h2
      exact Option.noConfusion (show (none : Option Doc) = some d from h2)

lemma wrappedCompute_wellFormed (compute : Option Doc) (io : IOEnv)
    (c : DiskCache) (srv : String) (lat lon : ℚ) (hc : c.wellFormed = true) :
    ((Legacy.wrappedCompute compute io c srv lat lon).2).wellFormed = true := by
  unfold Legacy.wrappedCompute
  cases compute with
  | none => exact hc
  | some res =>
    show ((if res.truthy = true
        then ((some res : Option Doc), DiskCache.set c io.setFail srv lat lon res)
        else ((none : Option Doc), c)).2).wellFormed = true
    by_cases htr : res.truthy = true
    · rw [if_pos htr]
      exact wellFormed_set c io.setFail srv lat lon res hc htr
    · rw [if_neg htr]
      exact hc

/-- C9: a falsy (empty or null) cached document is never served as a hit —
the app-domains skeleton falls through to the compute path — the legacy
wrappers never return a falsy document, a failed (null) analysis is never
written to the cache, and both analyzer families preserve the invariant
that every cached document is truthy (non-empty). -/
theorem C9_falsy_cache_never_hit :
    (∀ (io : IOEnv) (ee : Bool) (srv : String) (comp : Except String Doc)
        (c : DiskCache) (lat lon : ℚ) (cd : Doc),
        DiskCache.get c io.getFail srv lat lon = some cd → cd.truthy = false →
        cachedAnalyze io ee srv comp c lat lon
          = computePath io ee srv comp c lat lon) ∧
    (∀ (compute : Option Doc) (io : IOEnv) (c : DiskCache) (srv : String)
        (lat lon : ℚ) (d : Doc),
        (Legacy.wrappedAnalyze compute io c srv lat lon).1 = some d →
        d.truthy = true) ∧
    (∀ (compute : Option Doc) (io : IOEnv) (c : DiskCache) (srv : String)
        (lat lon : ℚ), c.wellFormed = true →
        ((Legacy.wrappedAnalyze compute io c srv lat lon).2).wellFormed = true) ∧
    (∀ (env : Domains.Env) (c : DiskCache) (lat lon : ℚ), c.wellFormed = true →
        ((Domains.analyze_wind env c lat lon).2.1).wellFormed = true ∧
        ((Domains.analyze_solar env c lat lon).2.1).wellFormed = true ∧
        ((Domains.analyze_water env c lat lon).2.1).wellFormed = true) := by
  refine ⟨?_, ?_, ?_, ?_⟩
  · intro io ee srv comp c lat lon cd hget htr
    unfold cachedAnalyze
    rw [hget]
    show (if cd.truthy = true then ((Except.ok cd : Except String Doc), c, 0)
          else computePath io ee srv comp c lat lon)
        = computePath io ee srv comp c lat lon
    rw [if_neg (by rw [htr]; exact Bool.false_ne_true)]
  · intro compute io c srv lat lon d h
    unfold Legacy.wrappedAnalyze at h
    cases hget : DiskCache.get c io.getFail srv lat lon with
    | some cached =>
      rw [hget] at h
      have h2 : (if cached.truthy = true then ((some cached : Option Doc), c)
          else Legacy.wrappedCompute compute io c srv lat lon).1 = some d := h
      by_cases htr : cached.truthy = true
      · rw [if_pos htr] at h2
        have h3 : (some cached : Option Doc) = some d := h2
        obtain rfl : cached = d := by injection h3
        exact htr
      · rw [if_neg htr] at h2
        exact wrappedCompute_truthy compute io c srv lat lon d h2
    | none =>
      rw [hget] at h
      exact wrappedCompute_truthy compute io c srv lat lon d h
  · intro compute io c srv lat lon hc
    unfold Legacy.wrappedAnalyze
    cases hget : DiskCache.get c io.getFail srv lat lon with
    | some cached =>
      show ((if cached.truthy = true then ((some cached : Option Doc), c)
          else Legacy.wrappedCompute compute io c srv lat lon).2).wellFormed = true
      by_cases htr : cached.truthy = true
      · rw [if_pos htr]
        exact hc
      · rw [if_neg htr]
        exact wrappedCompute_wellFormed compute io c srv lat lon hc
    | none => exact wrappedCompute_wellFormed compute io c srv lat lon hc
  · intro env c lat lon hc
    exact ⟨cachedAnalyze_wellFormed env.io env.eeInit ("wind") _ c lat lon
        (windCompute_truthy env) hc,
      cachedAnalyze_wellFormed env.io env.eeInit ("solar") _ c lat lon
        (solarCompute_truthy env) hc,
      cachedAnalyze_wellFormed env.io env.eeInit ("water") _ c lat lon
        (waterCompute_truthy env) hc⟩

/-- C9 witness: a cache holding the empty dict under the wind key is not
served as a hit — the analyzer takes the compute path. -/
theorem C9_witness :
    cachedAnalyze ioOK true ("wind") (Except.ok Domains.windDoc90) cFalsy 0 0
      = computePath ioOK true ("wind") (Except.ok Domains.windDoc90) cFalsy 0 0 := by
  have hget : DiskCache.get cFalsy ioOK.getFail ("wind") 0 0 = some (Doc.obj []) := by
    simp [DiskCache.get, selectRow, cFalsy, lookupEntry, ioOK]
  exact (C9_falsy_cache_never_hit).1 ioOK true ("wind") (Except.ok Domains.windDoc90)
    cFalsy 0 0 (Doc.obj []) hget rfl

/-- Selection of one of the three IEC capacity factors by index. -/
def cfAt (a b c : ℚ) : ℕ → ℚ
  | 0 => a
  | 1 => b
  | _ => c

lemma legacy_bestIdx_argmax (cf1 cf2 cf3 : ℚ) :
    cfAt cf1 cf2 cf3 (Legacy.bestIdx cf1 cf2 cf3) = max cf1 (max cf2 cf3) ∧
    ∀ j, j < Legacy.bestIdx cf1 cf2 cf3 →
      cfAt cf1 cf2 cf3 j < max cf1 (max cf2 cf3) := by
  unfold Legacy.bestIdx
  by_cases h1 : cf1 = max cf1 (max cf2 cf3)
  · rw [if_pos h1]
    exact ⟨h1, by intro j hj; omega⟩
  · rw [if_neg h1]
    by_cases h2 : cf2 = max cf1 (max cf2 cf3)
    · rw [if_pos h2]
      refine ⟨h2, ?_⟩
      intro j hj
      have hj0 : j = 0 := by omega
      subst hj0
      exact lt_of_le_of_ne (le_max_left _ _) h1
    · rw [if_neg h2]
      have h3 : cf3 = max cf1 (max cf2 cf3) := by
        rcases max_choice cf1 (max cf2 cf3) with h | h
        · exact absurd h.symm h1
        · rcases max_choice cf2 cf3 with h4 | h4
          · exact absurd (h.trans h4).symm h2
          · exact (h.trans h4).symm
      refine ⟨h3, ?_⟩
      intro j hj
      have hj01 : j = 0 ∨ j = 1 := by omega
      rcases hj01 with rfl | rfl
      · exact lt_of_le_of_ne (le_max_left _ _) h1
      · exact lt_of_le_of_ne (le_trans (le_max_left cf2 cf3) (le_max_right _ _)) h2

/-- C10 counterexample: with all three capacity factors zero the legacy
analyzer recommends IEC Class 1 (ties resolve to the lowest index and there
is no positivity guard), not IEC Class 3; the app-domains analyzer does
default to IEC Class 3 on the same input. -/
theorem C10_counterexample :
    Legacy.bestClass 0 0 0 = "IEC Class 1 — High Wind (>7.5 m/s)" ∧
    Legacy.bestClass 0 0 0 ≠ "IEC Class 3 — Low Wind (5.0–6.5 m/s)" ∧
    Domains.turbineRecommendation 0 0 0 = "IEC Class 3 (Low Wind)" := by
  have hidx : Legacy.bestIdx 0 0 0 = 0 := by
    unfold Legacy.bestIdx
    norm_num
  have hcls : Legacy.bestClass 0 0 0 = "IEC Class 1 — High Wind (>7.5 m/s)" := by
    unfold Legacy.bestClass
    rw [hidx]
    rfl
  have hidx2 : Domains.bestTurbineIdx 0 0 0 = 2 := by
    unfold Domains.bestTurbineIdx
    norm_num
  refine ⟨hcls, by rw [hcls]; decide, ?_⟩
  unfold Domains.turbineRecommendation
  rw [hidx2]

/-- C10 amended: in both analyzers the recommended class attains the maximal
capacity factor with ties resolved to the lowest class index — in the
app-domains analyzer when the maximum is positive, with a default of IEC
Class 3 (Low Wind) when all three capacity factors are zero or negative; in
the legacy analyzer the argmax rule applies unconditionally, so the all-zero
input yields IEC Class 1, not Class 3. -/
theorem C10_turbine_argmax (cf1 cf2 cf3 : ℚ) :
    (max cf1 (max cf2 cf3) ≤ 0 →
      Domains.turbineRecommendation cf1 cf2 cf3 = "IEC Class 3 (Low Wind)") ∧
    (0 < max cf1 (max cf2 cf3) →
      cfAt cf1 cf2 cf3 (Domains.bestTurbineIdx cf1 cf2 cf3)
          = max cf1 (max cf2 cf3) ∧
      ∀ j, j < Domains.bestTurbineIdx cf1 cf2 cf3 →
        cfAt cf1 cf2 cf3 j < max cf1 (max cf2 cf3)) ∧
    (cfAt cf1 cf2 cf3 (Legacy.bestIdx cf1 cf2 cf3) = max cf1 (max cf2 cf3) ∧
      ∀ j, j < Legacy.bestIdx cf1 cf2 cf3 →
        cfAt cf1 cf2 cf3 j < max cf1 (max cf2 cf3)) := by
  refine ⟨?_, ?_, legacy_bestIdx_argmax cf1 cf2 cf3⟩
  · intro h
    unfold Domains.turbineRecommendation Domains.bestTurbineIdx
    rw [if_neg (not_lt.mpr h)]
  · intro h
    have heq : Domains.bestTurbineIdx cf1 cf2 cf3 = Legacy.bestIdx cf1 cf2 cf3 := by
      unfold Domains.bestTurbineIdx Legacy.bestIdx
      rw [if_pos h]
    rw [heq]
    exact legacy_bestIdx_argmax cf1 cf2 cf3

/-- C10 witness: all-negative capacity factors make the app-domains analyzer
default to IEC Class 3. -/
theorem C10_witness :
    Domains.turbineRecommendation (-1) (-2) (-3) = "IEC Class 3 (Low Wind)" :=
  (C10_turbine_argmax (-1) (-2) (-3)).1
    (by simp only [max_le_iff]; norm_num)

end MI
